import Mathlib

/-!
Verification development for the high-level ADB device layer
(`adb/contrib/high.py`).  The Python source is shallowly embedded:

* device I/O primitives (`Shell`, `PullContent`, `PushContent`, `Stat`) are
  modelled by environment records of pure functions, and every embedded
  operation additionally returns the ordered list of primitive calls it
  performed (its *trace*);
* Python exceptions (`assert`, `int()` failures, bad indexing) are modelled
  with `Except PyErr`;
* Python string operations (`strip`, `split`, `splitlines`, `startswith`)
  are re-implemented over `List Char`;
* wall-clock time in the polling loops is modelled in ticks of 100 ms (one
  `time.sleep(0.1)` advances the clock by one tick) and timeouts are
  expressed in the same unit.
-/

set_option maxRecDepth 4000

/-! ## Python string helpers -/

/-- Whitespace characters recognised by Python's `str.strip` / `str.split`. -/
def isPySpace (c : Char) : Bool :=
  c == ' ' || c == '\t' || c == '\n' || c == '\r' ||
  c == Char.ofNat 11 || c == Char.ofNat 12

/-- `str.strip()` on a character list. -/
def pyStripChars (l : List Char) : List Char :=
  ((l.dropWhile isPySpace).reverse.dropWhile isPySpace).reverse

/-- `str.strip()`. -/
def pyStrip (s : String) : String :=
  String.mk (pyStripChars s.data)

/-- `str.rstrip()`. -/
def pyRstrip (s : String) : String :=
  String.mk ((s.data.reverse.dropWhile isPySpace).reverse)

/-- `str.startswith(pre)`. -/
def pyStartsWith (s pre : String) : Bool :=
  pre.data.isPrefixOf s.data

/-- Helper for `str.split()` (no separator): accumulates the current word. -/
def pySplitWsAux : List Char → List Char → List (List Char)
  | [], cur => if cur.isEmpty then [] else [cur.reverse]
  | c :: cs, cur =>
    if isPySpace c then
      if cur.isEmpty then pySplitWsAux cs [] else cur.reverse :: pySplitWsAux cs []
    else pySplitWsAux cs (c :: cur)

/-- `str.split()` with no argument: split on whitespace runs, no empties. -/
def pySplitWs (s : String) : List String :=
  (pySplitWsAux s.data []).map String.mk

/-- Helper for `str.splitlines()`. -/
def pySplitLinesAux : List Char → List Char → List (List Char)
  | [], cur => [cur.reverse]
  | '\r' :: '\n' :: cs, cur =>
    cur.reverse :: (match cs with | [] => [] | c :: cs2 => pySplitLinesAux (c :: cs2) [])
  | '\n' :: cs, cur =>
    cur.reverse :: (match cs with | [] => [] | c :: cs2 => pySplitLinesAux (c :: cs2) [])
  | '\r' :: cs, cur =>
    cur.reverse :: (match cs with | [] => [] | c :: cs2 => pySplitLinesAux (c :: cs2) [])
  | c :: cs, cur => pySplitLinesAux cs (c :: cur)

/-- `str.splitlines()` (universal newlines restricted to LF, CR, CRLF). -/
def pySplitLines (s : String) : List String :=
  match s.data with
  | [] => []
  | c :: cs => (pySplitLinesAux (c :: cs) []).map String.mk

/-- `str.split(sep, 1)` restricted to a single-character separator:
returns the parts around the first occurrence, or `none` if absent. -/
def pySplitOnceAux (sep : Char) : List Char → List Char → Option (List Char × List Char)
  | [], _ => none
  | c :: cs, acc => if c == sep then some (acc.reverse, cs) else pySplitOnceAux sep cs (c :: acc)

/-- `str.split(sep, 1)` when it yields exactly two parts, else `none`
(Python unpacking `key, value = line.split(sep, 1)` raises in that case). -/
def pySplitOnce (s : String) (sep : Char) : Option (String × String) :=
  (pySplitOnceAux sep s.data []).map (fun p => (String.mk p.1, String.mk p.2))

/-- Digits of a decimal literal; `none` if empty or a non-digit occurs. -/
def digitsToNat : List Char → Option Nat
  | [] => none
  | l =>
    l.foldl (fun acc c =>
      match acc with
      | none => none
      | some n => if c.isDigit then some (n * 10 + (c.toNat - 48)) else none) (some 0)

/-- Python `int(s)`: surrounding whitespace allowed, optional sign, decimal
digits; `none` models the `ValueError` raise. -/
def pyInt (s : String) : Option Int :=
  match pyStripChars s.data with
  | [] => none
  | c :: rest =>
    if c == '-' then (digitsToNat rest).map (fun n => -(n : Int))
    else if c == '+' then (digitsToNat rest).map (fun n => (n : Int))
    else (digitsToNat (c :: rest)).map (fun n => (n : Int))

/-- Python truthiness of an optional string (`None` and `''` are falsy). -/
def pyTruthy (o : Option String) : Bool :=
  match o with
  | some s => s != ""
  | none => false

/-- Stable insertion used by `pySorted`. -/
def pyInsertLe {α : Type} (le : α → α → Bool) (a : α) : List α → List α
  | [] => [a]
  | b :: bs => if le a b then a :: b :: bs else b :: pyInsertLe le a bs

/-- Python `sorted`: a stable ascending sort (insertion sort, extensionally
equal to any stable sort, which is all `sorted` guarantees). -/
def pySorted {α : Type} (le : α → α → Bool) (l : List α) : List α :=
  l.foldr (pyInsertLe le) []


/-! ## Shared result and event types -/

/-- Python exceptions raised by the embedded code. -/
inductive PyErr where
  | assertionError : PyErr
  | valueError : PyErr
  | typeError : PyErr
  | indexError : PyErr
deriving DecidableEq, Repr

/-- One primitive device call, in program order.  `push` and the
shell-redirection `shell` commands are the only writes. -/
inductive Event where
  | shell (cmd : String) : Event
  | pull (path : String) : Event
  | push (content : String) (path : String) : Event
  | stat (path : String) : Event
deriving DecidableEq, Repr

/-- True exactly for `Stat` calls. -/
def isStatEvent : Event → Bool
  | .stat _ => true
  | _ => false

/-! ## Static data model (`KNOWN_CPU_SCALING_GOVERNOR_VALUES`, `DeviceCache`) -/

/-- The fixed vocabulary of CPU scaling governors from `high.py`. -/
def KNOWN_CPU_SCALING_GOVERNOR_VALUES : List String :=
  ["conservative", "interactive", "ondemand", "performance", "powersave", "userspace"]

/-- The `DeviceCache` namedtuple.  `has_su` is a `Bool` and
`available_governors` a plain list because `_InitCache` can never leave them
`None`; the other three fields can be `None` (here `none`).  The code path
where `available_frequencies` remains an empty *string* is represented by
`some []`, which is behaviourally identical (falsy, raises on `[0]`). -/
structure DeviceCache where
  build_props : Option (List (String × String))
  external_storage_path : Option String
  has_su : Bool
  available_frequencies : Option (List Int)
  available_governors : List String
deriving DecidableEq, Repr

/-- A live device as seen by `_PerDeviceCache.trim`. -/
structure LiveDevice where
  port_path : String
  is_valid : Bool
deriving DecidableEq, Repr

/-- The `_PerDeviceCache` store: a dict from port path to `DeviceCache`. -/
abbrev CacheStore : Type := List (String × DeviceCache)

/-- `_PerDeviceCache.get`. -/
def cacheGet (store : CacheStore) (p : String) : Option DeviceCache :=
  (List.find? (fun kv => kv.1 == p) store).map Prod.snd

/-- `_PerDeviceCache.set` (dict assignment: replace the entry for the key in
place, keeping insertion order, or append a new entry). -/
def cacheSet : CacheStore → String → DeviceCache → CacheStore
  | [], p, c => [(p, c)]
  | kv :: tl, p, c => if kv.1 == p then (p, c) :: tl else kv :: cacheSet tl p c

/-- The dict comprehension in `trim`: lookup by port path, later devices
overwrite earlier ones with the same path. -/
def deviceKeys (devices : List LiveDevice) (p : String) : Option LiveDevice :=
  List.find? (fun d => d.port_path == p) devices.reverse

/-- The keep-condition of `trim`: the entry survives iff a live device with
that port path exists and reports itself valid. -/
def trimKeep (devices : List LiveDevice) (p : String) : Bool :=
  match deviceKeys devices p with
  | some d => d.is_valid
  | none => false

/-- `_PerDeviceCache.trim`. -/
def trim (devices : List LiveDevice) (store : CacheStore) : CacheStore :=
  List.filter (fun kv => trimKeep devices kv.1) store

/-! ## `_ParcelToList` -/

/-- Lowercase hex digit (`[0-9a-f]`). -/
def isHexLower (c : Char) : Bool :=
  c.isDigit || ('a' ≤ c && c ≤ 'f')

/-- `[0-9a-f ]`. -/
def isHexLowerSp (c : Char) : Bool :=
  isHexLower c || c == ' '

/-- The ASCII apostrophe used as a delimiter in the parcel dump format. -/
def quoteChar : Char := Char.ofNat 39

/-- Four blank characters, the "no more data" placeholder of a half-column. -/
def blank4 : List Char := [' ', ' ', ' ', ' ']

/-- `re.match` against the parcel record pattern
`  0x[0-9a-f]{8}\: ([0-9a-f ]{8}) ([0-9a-f ]{8}) ([0-9a-f ]{8}) ([0-9a-f ]{8}) '.{16}'\)?`.
Everything before the groups is fixed-width, so on success the four captured
columns are the slices at offsets 14, 23, 32 and 41.  `re.match` only anchors
the start, so trailing characters (and the optional parenthesis) are
irrelevant to whether the pattern matches. -/
def matchParcelLine (l : List Char) : Option (List Char × List Char × List Char × List Char) :=
  if l.take 2 = [' ', ' '] ∧
     (l.drop 2).take 2 = ['0', 'x'] ∧
     ((l.drop 4).take 8).length = 8 ∧ ((l.drop 4).take 8).all isHexLower = true ∧
     (l.drop 12).take 2 = [':', ' '] ∧
     ((l.drop 14).take 8).length = 8 ∧ ((l.drop 14).take 8).all isHexLowerSp = true ∧
     (l.drop 22).take 1 = [' '] ∧
     ((l.drop 23).take 8).length = 8 ∧ ((l.drop 23).take 8).all isHexLowerSp = true ∧
     (l.drop 31).take 1 = [' '] ∧
     ((l.drop 32).take 8).length = 8 ∧ ((l.drop 32).take 8).all isHexLowerSp = true ∧
     (l.drop 40).take 1 = [' '] ∧
     ((l.drop 41).take 8).length = 8 ∧ ((l.drop 41).take 8).all isHexLowerSp = true ∧
     (l.drop 49).take 2 = [' ', quoteChar] ∧
     ((l.drop 51).take 16).length = 16 ∧
     ((l.drop 51).take 16).all (fun c => c != '\n') = true ∧
     (l.drop 67).take 1 = [quoteChar]
  then some ((l.drop 14).take 8, (l.drop 23).take 8, (l.drop 32).take 8, (l.drop 41).take 8)
  else none

/-- The low half (`group[4:8]`) of a column. -/
def lowHalf (g : List Char) : List Char := (g.drop 4).take 4

/-- The high half (`group[0:4]`) of a column. -/
def highHalf (g : List Char) : List Char := g.take 4

/-- The per-column emission of `_ParcelToList`: `group[4:8]` then
`group[0:4]`, each skipped when equal to four spaces. -/
def emitGroup (g : List Char) : List (List Char) :=
  (if lowHalf g = blank4 then [] else [lowHalf g]) ++
  (if highHalf g = blank4 then [] else [highHalf g])

/-- `_ParcelToList`: scan lines until the first one that fails to match the
record pattern, emitting the split columns of every matching line. -/
def _ParcelToList : List (List Char) → List (List Char)
  | [] => []
  | line :: rest =>
    match matchParcelLine line with
    | none => []
    | some (g1, g2, g3, g4) =>
      emitGroup g1 ++ emitGroup g2 ++ emitGroup g3 ++ emitGroup g4 ++ _ParcelToList rest

/-- Decoder written from the spec's words: take lines while they match the
record pattern, and for each matching line emit, per column left to right,
the low half then the high half, skipping any half that is entirely blank
(all spaces). -/
def specParcelDecode (lines : List (List Char)) : List (List Char) :=
  ((lines.takeWhile (fun l => (matchParcelLine l).isSome)).map (fun l =>
    match matchParcelLine l with
    | some (g1, g2, g3, g4) =>
      ([g1, g2, g3, g4].map (fun g =>
        ([lowHalf g, highHalf g].filter (fun h => !(h.all (fun c => c == ' ')))))).flatten
    | none => [])).flatten

/-! ## `SetCPUScalingGovernor` / `SetCPUSpeed` (PowerStateController)

The device primitives used by these two methods are time-independent, so
they are modelled by a `DevEnv` record of pure functions.  Each operation
returns `Except PyErr Bool` (the `Bool` of the Python method, or the
exception an `assert` / bad indexing raises) together with its trace. -/

/-- Environment for the non-polling device methods. -/
structure DevEnv where
  shell : String → String × Int
  pull : String → Option String
  push : String → String → Bool

def scalingGovernorPath : String :=
  "/sys/devices/system/cpu/cpu0/cpufreq/scaling_governor"

def scalingSetspeedPath : String :=
  "/sys/devices/system/cpu/cpu0/cpufreq/scaling_setspeed"

/-- The write-and-readback tail of `SetCPUScalingGovernor` (lines 501-536):
read the current value, succeed immediately if it already equals the target,
otherwise push the value, fall back to a shell redirection if the push
fails, and finally read the value back and require exact equality. -/
def governorWrite (gov : String) (env : DevEnv) : Except PyErr Bool × List Event :=
  let prev := env.pull scalingGovernorPath
  let tr0 := [Event.pull scalingGovernorPath]
  if pyTruthy prev && (pyStrip (prev.getD "") == gov) then (.ok true, tr0)
  else
    let pushOk := env.push (gov ++ "\n") scalingGovernorPath
    let tr1 := tr0 ++ [Event.push (gov ++ "\n") scalingGovernorPath]
    if pushOk then
      let newval := env.pull scalingGovernorPath
      let tr2 := tr1 ++ [Event.pull scalingGovernorPath]
      if pyStrip (newval.getD "") == gov then (.ok true, tr2) else (.ok false, tr2)
    else
      let cmd := "echo \"" ++ gov ++ "\" > " ++ scalingGovernorPath
      let shellRes := env.shell cmd
      let tr2 := tr1 ++ [Event.shell cmd]
      if shellRes.2 != 0 then (.ok false, tr2)
      else
        let newval := env.pull scalingGovernorPath
        let tr3 := tr2 ++ [Event.pull scalingGovernorPath]
        if pyStrip (newval.getD "") == gov then (.ok true, tr3) else (.ok false, tr3)

/-- `SetCPUScalingGovernor` specialized at `governor = 'userspace'` (the only
governor `SetCPUSpeed` requests).  The `powersave` delegation branch cannot
trigger for `'userspace'`, which breaks the mutual recursion between the two
methods; `setCPUScalingGovernorUserspace_spec` below proves this
specialization agrees with the general definition. -/
def setGovernorUserspace (cache : DeviceCache) (env : DevEnv) : Except PyErr Bool × List Event :=
  if cache.available_governors.isEmpty then (.ok false, [])
  else if "userspace" ∈ cache.available_governors then governorWrite "userspace" env
  else (.ok false, [])

/-- `SetCPUSpeed` (lines 538-558): range assert, capability check, exact
membership assert, switch the governor to `userspace`, write the frequency
and confirm by readback. -/
def SetCPUSpeed (cache : DeviceCache) (speed : Int) (env : DevEnv) :
    Except PyErr Bool × List Event :=
  if ¬ (10000 ≤ speed ∧ speed ≤ 10000000) then (.error .assertionError, [])
  else
    match cache.available_frequencies with
    | none => (.ok false, [])
    | some freqs =>
      if freqs.isEmpty then (.ok false, [])
      else if speed ∉ freqs then (.error .assertionError, [])
      else
        match setGovernorUserspace cache env with
        | (.error e, tr1) => (.error e, tr1)
        | (.ok success, tr1) =>
          let pushOk := env.push (toString speed ++ "\n") scalingSetspeedPath
          let tr2 := tr1 ++ [Event.push (toString speed ++ "\n") scalingSetspeedPath]
          if !pushOk then (.ok false, tr2)
          else
            let val := env.pull scalingSetspeedPath
            let tr3 := tr2 ++ [Event.pull scalingSetspeedPath]
            (.ok (success && (pyStrip (val.getD "") == toString speed)), tr3)

/-- `SetCPUScalingGovernor` (lines 478-536): assert the target is known,
fail fast when the cached governor list is falsy, fall back for unsupported
targets (`powersave` delegates to `SetCPUSpeed` at the first cached
frequency; `ondemand` and `interactive` substitute each other; anything else
fails), then write and confirm. -/
def SetCPUScalingGovernor (cache : DeviceCache) (governor : String) (env : DevEnv) :
    Except PyErr Bool × List Event :=
  if governor ∉ KNOWN_CPU_SCALING_GOVERNOR_VALUES then (.error .assertionError, [])
  else if cache.available_governors.isEmpty then (.ok false, [])
  else if governor ∈ cache.available_governors then governorWrite governor env
  else if governor == "powersave" then
    match cache.available_frequencies with
    | none => (.error .typeError, [])
    | some [] => (.error .indexError, [])
    | some (f :: _) => SetCPUSpeed cache f env
  else if governor == "ondemand" then governorWrite "interactive" env
  else if governor == "interactive" then governorWrite "ondemand" env
  else (.ok false, [])

/-! ## `_InitCache` -/

/-- Environment for `_InitCache`: `Shell`, `PullContent` and the full
three-component `Stat` primitive. -/
structure InitEnv where
  shell : String → String × Int
  pull : String → Option String
  stat : String → Option Nat × Option Nat × Option Nat

def buildPropPath : String := "/system/build.prop"

def suPath : String := "/system/xbin/su"

def scalingAvailableGovernorsPath : String :=
  "/sys/devices/system/cpu/cpu0/cpufreq/scaling_available_governors"

def scalingAvailableFrequenciesPath : String :=
  "/sys/devices/system/cpu/cpu0/cpufreq/scaling_available_frequencies"

def cpuinfoMinFreqPath : String :=
  "/sys/devices/system/cpu/cpu0/cpufreq/cpuinfo_min_freq"

def cpuinfoMaxFreqPath : String :=
  "/sys/devices/system/cpu/cpu0/cpufreq/cpuinfo_max_freq"

/-- Python dict assignment `d[k] = v` on an association list. -/
def dictSet (l : List (String × String)) (k v : String) : List (String × String) :=
  if List.any l (fun kv => kv.1 == k) then
    List.map (fun kv => if kv.1 == k then (k, v) else kv) l
  else l ++ [(k, v)]

/-- The `/system/build.prop` parsing loop of `_InitCache`: skip comments,
blank lines and `import` lines; split every other line at its first `=`
(raising `ValueError` when there is none, as tuple unpacking does). -/
def parsePropLines : List String → List (String × String) →
    Except PyErr (List (String × String))
  | [], acc => .ok acc
  | l :: ls, acc =>
    if pyStartsWith l "#" || l == "" then parsePropLines ls acc
    else if pyStartsWith l "import " then parsePropLines ls acc
    else
      match pySplitOnce l '=' with
      | none => .error .valueError
      | some (k, v) => parsePropLines ls (dictSet acc k v)

/-- The `properties` field: `None` when the pull failed or was empty,
otherwise the parsed key/value mapping. -/
def parseProps (out : Option String) : Except PyErr (Option (List (String × String))) :=
  match out with
  | none => .ok none
  | some s =>
    if s == "" then .ok none
    else (parsePropLines (pySplitLines s) []).map some

/-- The `available_governors` computation: default to the full known
vocabulary, but when the sysfs file has content, sort its words and assert
they form a subset of the known set. -/
def governorsOf (out : Option String) : Except PyErr (List String) :=
  if pyTruthy out then
    let gl := pySorted (fun a b => decide (a ≤ b)) (pySplitWs (out.getD ""))
    if gl.all (fun g => g ∈ KNOWN_CPU_SCALING_GOVERNOR_VALUES) then .ok gl
    else .error .assertionError
  else .ok KNOWN_CPU_SCALING_GOVERNOR_VALUES

/-- The `available_frequencies` computation: parse and sort the
`scaling_available_frequencies` words; on a falsy read fall back to
`cpuinfo_min_freq` / `cpuinfo_max_freq` when both are truthy, else stay
falsy (`some []` represents the residual falsy string, `none` the `None`).
`int()` failures raise `ValueError`. -/
def frequenciesOf (out minc maxc : Option String) : Except PyErr (Option (List Int)) :=
  if pyTruthy out then
    match (pySplitWs (pyStrip (out.getD ""))).mapM pyInt with
    | none => .error .valueError
    | some l => .ok (some (pySorted (fun a b => decide (a ≤ b)) l))
  else
    if pyTruthy minc && pyTruthy maxc then
      match pyInt (minc.getD ""), pyInt (maxc.getD "") with
      | some lo, some hi => .ok (some [lo, hi])
      | _, _ => .error .valueError
    else
      match out with
      | none => .ok none
      | some _ => .ok (some [])

/-- The cache-miss body of `_InitCache` (lines 120-170): the retrieval of
every `DeviceCache` field, in source order, with its trace. -/
def initCacheFetch (env : InitEnv) : Except PyErr DeviceCache × List Event :=
  let espRes := env.shell "echo -n $EXTERNAL_STORAGE"
  let esp : Option String := if espRes.2 != 0 then none else some espRes.1
  let tr1 := [Event.shell "echo -n $EXTERNAL_STORAGE"]
  let bpOut := env.pull buildPropPath
  let tr2 := tr1 ++ [Event.pull buildPropPath]
  match parseProps bpOut with
  | .error e => (.error e, tr2)
  | .ok props =>
    let mode := (env.stat suPath).1
    let hasSu : Bool := match mode with | some m => m != 0 | none => false
    let tr3 := tr2 ++ [Event.stat suPath]
    let govOut := env.pull scalingAvailableGovernorsPath
    let tr4 := tr3 ++ [Event.pull scalingAvailableGovernorsPath]
    match governorsOf govOut with
    | .error e => (.error e, tr4)
    | .ok govs =>
      let freqOut := env.pull scalingAvailableFrequenciesPath
      let tr5 := tr4 ++ [Event.pull scalingAvailableFrequenciesPath]
      if pyTruthy freqOut then
        match frequenciesOf freqOut none none with
        | .error e => (.error e, tr5)
        | .ok freqs =>
          (.ok ⟨props, esp, hasSu, freqs, govs⟩, tr5)
      else
        let minc := env.pull cpuinfoMinFreqPath
        let maxc := env.pull cpuinfoMaxFreqPath
        let tr6 := tr5 ++ [Event.pull cpuinfoMinFreqPath, Event.pull cpuinfoMaxFreqPath]
        match frequenciesOf freqOut minc maxc with
        | .error e => (.error e, tr6)
        | .ok freqs =>
          (.ok ⟨props, esp, hasSu, freqs, govs⟩, tr6)

/-- The `all(i is not None ...)` store condition: `has_su` and
`available_governors` can never be `None`, so only the three optional
fields matter. -/
def allFieldsNotNone (c : DeviceCache) : Bool :=
  c.build_props.isSome && c.external_storage_path.isSome && c.available_frequencies.isSome

/-- `_InitCache`: return the cached snapshot if present; otherwise fetch all
fields and store the snapshot only when every field retrieval succeeded.
Returns the snapshot (or raised exception), the updated store and the trace. -/
def _InitCache (env : InitEnv) (store : CacheStore) (portPath : String) :
    Except PyErr DeviceCache × CacheStore × List Event :=
  match cacheGet store portPath with
  | some c => (.ok c, store, [])
  | none =>
    match initCacheFetch env with
    | (.error e, tr) => (.error e, store, tr)
    | (.ok c, tr) =>
      (.ok c, (if allFieldsNotNone c then cacheSet store portPath c else store), tr)

/-! ## `WaitForDevice` / `WaitUntilFullyBooted` (BootReadinessController)

Time is an explicit tick counter (one tick per `time.sleep(0.1)`), and the
polling primitives may depend on the tick at which they are invoked. -/

/-- Environment for the boot polling loops.  `stat` returns the mode
component of `Stat` (the only one `WaitForDevice` inspects). -/
structure BootEnv where
  stat : Nat → String → Option Nat
  shell : Nat → String → String × Int

/-- `GetProp(prop)` at tick `t`: `Shell('getprop <prop>')`, `None` on a
non-zero exit code, else the right-stripped output. -/
def GetProp (env : BootEnv) (t : Nat) (prop : String) : Option String :=
  let res := env.shell t ("getprop " ++ prop)
  if res.2 != 0 then none else some (pyRstrip res.1)

/-- The polling loop of `WaitForDevice`: at tick `t`, stop with failure once
the elapsed time exceeds the timeout (`fuel = 0`), succeed as soon as `Stat`
reports a non-`None` mode, else sleep one tick and retry.  Returns the flag,
the tick at which the loop exited and the trace. -/
def waitForDeviceLoop (env : BootEnv) (esp : String) : Nat → Nat → Bool × Nat × List Event
  | 0, t => (false, t, [])
  | fuel + 1, t =>
    match env.stat t esp with
    | some _ => (true, t, [Event.stat esp])
    | none =>
      let r := waitForDeviceLoop env esp fuel (t + 1)
      (r.1, r.2.1, Event.stat esp :: r.2.2)

/-- `WaitForDevice` (lines 741-760): fail immediately when the cached
external storage path is falsy, else poll `Stat` on it.  `timeout` is in
ticks and the loop starting at tick `t0` runs while `t - t0 ≤ timeout`. -/
def WaitForDevice (cache : DeviceCache) (timeout : Nat) (env : BootEnv) (t0 : Nat) :
    Bool × Nat × List Event :=
  match cache.external_storage_path with
  | none => (false, t0, [])
  | some esp =>
    if esp == "" then (false, t0, [])
    else waitForDeviceLoop env esp (timeout + 1) t0

/-- Phase B of `WaitUntilFullyBooted`: poll `GetProp('init.svc.bootanim')`
until it equals `'stopped'`.  On timeout the warning log performs one more
`GetProp` call before returning failure. -/
def bootanimLoop (env : BootEnv) : Nat → Nat → Bool × Nat × List Event
  | 0, t => (false, t, [Event.shell "getprop init.svc.bootanim"])
  | fuel + 1, t =>
    if GetProp env t "init.svc.bootanim" == some "stopped" then
      (true, t, [Event.shell "getprop init.svc.bootanim"])
    else
      let r := bootanimLoop env fuel (t + 1)
      (r.1, r.2.1, Event.shell "getprop init.svc.bootanim" :: r.2.2)

def pmUpSentinel : String := "Error: no package specified\n"

def pmNotRunningSentinel : String :=
  "Error: Could not access the Package Manager.  Is the system running?\n"

/-- Phase C of `WaitUntilFullyBooted`: `Shell('pm path')` until the
"no package specified" sentinel appears; the "not running" sentinel means
still booting; any other output fails the assert. -/
def pmLoop (env : BootEnv) : Nat → Nat → Except PyErr Bool × Nat × List Event
  | 0, t => (.ok false, t, [])
  | fuel + 1, t =>
    let out := (env.shell t "pm path").1
    if out == pmUpSentinel then (.ok true, t, [Event.shell "pm path"])
    else if out == pmNotRunningSentinel then
      let r := pmLoop env fuel (t + 1)
      (r.1, r.2.1, Event.shell "pm path" :: r.2.2)
    else (.error .assertionError, t, [Event.shell "pm path"])

/-- `WaitUntilFullyBooted` (lines 762-807): Phase A (`WaitForDevice`), then
the boot-animation poll, then the package-manager poll, all phases measured
against the single deadline started at tick 0. -/
def WaitUntilFullyBooted (cache : DeviceCache) (timeout : Nat) (env : BootEnv) :
    Except PyErr Bool × List Event :=
  let a := WaitForDevice cache timeout env 0
  if !a.1 then (.ok false, a.2.2)
  else
    let b := bootanimLoop env (timeout + 1 - a.2.1) a.2.1
    if !b.1 then (.ok false, a.2.2 ++ b.2.2)
    else
      let c := pmLoop env (timeout + 1 - b.2.1) b.2.1
      (c.1, a.2.2 ++ b.2.2 ++ c.2.2)

/-! ## `Mkstemp` / `WrappedShell` (WrappedShellExecutor) -/

/-- Environment for `Mkstemp` / `WrappedShell`.  `stat` is the mode
component; `names` streams are passed separately to `Mkstemp`. -/
structure ShellEnv where
  shell : String → String × Int
  pull : String → Option String
  push : String → String → Bool
  stat : String → Option Nat

/-- The result of `WrappedShell`: the Python method returns the bare `False`
sentinel when temp-file allocation fails, else an `(output, exit code)`
pair. -/
inductive WrappedResult where
  | fail : WrappedResult
  | ok (out : Option String) (code : Int) : WrappedResult
deriving DecidableEq, Repr

/-- The bounded retry loop of `Mkstemp` (lines 847-854): up to five
attempts; `names i` is the random alphanumeric part drawn at attempt `i`.
A truthy `Stat` mode means a name collision (skip); a successful push
returns the name; a failed push also falls through to the next attempt. -/
def mkstempLoop (env : ShellEnv) (names : Nat → String) (content pre suf : String) :
    Nat → Nat → Option String × List Event
  | 0, _ => (none, [])
  | fuel + 1, i =>
    let name := "/data/local/tmp/" ++ pre ++ names i ++ suf
    let tryPush :=
      if env.push content name then (some name, [Event.stat name, Event.push content name])
      else
        let r := mkstempLoop env names content pre suf fuel (i + 1)
        (r.1, Event.stat name :: Event.push content name :: r.2)
    match env.stat name with
    | some m =>
      if m != 0 then
        let r := mkstempLoop env names content pre suf fuel (i + 1)
        (r.1, Event.stat name :: r.2)
      else tryPush
    | none => tryPush

/-- `Mkstemp(content, prefix='python-adb', suffix)`. -/
def Mkstemp (env : ShellEnv) (names : Nat → String) (content pre suf : String) :
    Option String × List Event :=
  mkstempLoop env names content pre suf 5 0

/-- The script content written by `WrappedShell`. -/
def wrappedScriptContent (commands : List String) : String :=
  String.join (commands.map (fun l => l ++ "\n"))

/-- `WrappedShell` (lines 856-881): make a temp script and a temp output
file (failure of either allocation returns the `False` sentinel), run the
script with output redirected, pull the output, and remove both temp files
in nested `finally` blocks. -/
def WrappedShell (env : ShellEnv) (names1 names2 : Nat → String) (commands : List String) :
    WrappedResult × List Event :=
  let content := wrappedScriptContent commands
  let m1 := Mkstemp env names1 content "python-adb" ".sh"
  match m1.1 with
  | none => (.fail, m1.2)
  | some script =>
    let m2 := Mkstemp env names2 "" "python-adb" ".txt"
    match m2.1 with
    | none => (.fail, m1.2 ++ m2.2 ++ [Event.shell ("rm " ++ script)])
    | some outfile =>
      let cmd := "sh " ++ script ++ " &> " ++ outfile
      let runRes := env.shell cmd
      let out := env.pull outfile
      (.ok out runRes.2,
        m1.2 ++ m2.2 ++
        [Event.shell cmd, Event.pull outfile,
         Event.shell ("rm " ++ outfile), Event.shell ("rm " ++ script)])

/-- A shell event whose command is an `rm` removal. -/
def isRmEvent : Event → Bool
  | .shell c => pyStartsWith c "rm "
  | _ => false

/-- A shell event that executes the wrapped script (`sh ...`). -/
def isShExecEvent : Event → Bool
  | .shell c => pyStartsWith c "sh "
  | _ => false

/-! ## Concrete data used by witnesses and counterexamples -/

/-- A concrete well-formed parcel dump line (column 4 has a blank low half). -/
def sampleParcelLine : List Char :=
  ("  0x00000000: 00610062 00630064 00650066 0067     ").data ++ [quoteChar] ++
  ("abcdefghabcdefgh").data ++ [quoteChar]

/-- A concrete line that fails the record pattern. -/
def garbageLine : List Char := ("garbage").data

/-- Environment whose pull always fails, push succeeds, shell succeeds. -/
def devEnv0 : DevEnv := ⟨fun _ => ("", 0), fun _ => none, fun _ _ => true⟩

/-- Device cache with a non-empty frequency list lacking 500000. -/
def c1CexCache : DeviceCache := ⟨none, none, false, some [300000], []⟩

/-- Device cache with no frequency list at all. -/
def c1EmptyCache : DeviceCache := ⟨none, none, false, none, []⟩

/-- Reachable cache with an empty (but present) governor list, as produced
by `_InitCache` from a whitespace-only `scaling_available_governors` file. -/
def c3CexCache : DeviceCache := ⟨none, none, false, some [300000, 1000000], []⟩

/-- Cache for the C3 witness: governor list non-empty, lacking powersave. -/
def c3WitCache : DeviceCache := ⟨none, none, false, some [300000, 1000000], ["performance"]⟩

/-- Cache and environment for the C4 witness. -/
def c4Cache : DeviceCache := ⟨none, none, false, none, ["ondemand", "userspace"]⟩

def c4Env : DevEnv :=
  ⟨fun _ => ("", 0),
   fun p => if p == scalingGovernorPath then some "ondemand\n" else none,
   fun _ _ => true⟩

/-- Environment for the C10 witness: governor file missing, frequencies and
build properties present. -/
def c10Env : InitEnv :=
  ⟨fun _ => ("/sdcard", 0),
   fun p => if p == buildPropPath then some "ro.a=1"
     else if p == scalingAvailableFrequenciesPath then some "300000 1000000" else none,
   fun _ => (some 33188, some 0, some 0)⟩

/-- The snapshot `_InitCache` produces under `c10Env`. -/
def c10CacheVal : DeviceCache :=
  ⟨some [("ro.a", "1")], some "/sdcard", true, some [300000, 1000000],
   KNOWN_CPU_SCALING_GOVERNOR_VALUES⟩

/-- The trace `_InitCache` produces under `c10Env`. -/
def c10Trace : List Event :=
  [Event.shell "echo -n $EXTERNAL_STORAGE", Event.pull buildPropPath, Event.stat suPath,
   Event.pull scalingAvailableGovernorsPath, Event.pull scalingAvailableFrequenciesPath]

/-- Environment whose `scaling_available_governors` file reads a governor
outside the known vocabulary. -/
def c2Env : InitEnv :=
  ⟨fun _ => ("/sdcard", 0),
   fun p => if p == buildPropPath then some "ro.a=1"
     else if p == scalingAvailableGovernorsPath then some "superfast" else none,
   fun _ => (some 33188, some 0, some 0)⟩

/-- Cache and environment for the C7 witness: storage path present but the
device never answers `Stat`. -/
def c7Cache : DeviceCache := ⟨none, some "/sdcard", false, none, []⟩

def c7Env : BootEnv := ⟨fun _ _ => none, fun _ _ => ("", 0)⟩

/-- Successful-allocation environment for the C8 witness. -/
def c8EnvOk : ShellEnv := ⟨fun _ => ("done", 3), fun _ => some "output", fun _ _ => true, fun _ => none⟩

/-- Failing-allocation environment for the C8 witness (every push fails). -/
def c8EnvFail : ShellEnv := ⟨fun _ => ("done", 3), fun _ => some "output", fun _ _ => false, fun _ => none⟩

/-! ## Helper instances and lemmas -/

/-- Decidable equality for `Except` results. -/
instance exceptDecEq {ε α : Type} [DecidableEq ε] [DecidableEq α] :
    DecidableEq (Except ε α)
  | .error a, .error b =>
    if h : a = b then isTrue (congrArg Except.error h)
    else isFalse (fun hc => h (Except.error.inj hc))
  | .error _, .ok _ => isFalse (fun hc => Except.noConfusion hc)
  | .ok _, .error _ => isFalse (fun hc => Except.noConfusion hc)
  | .ok a, .ok b =>
    if h : a = b then isTrue (congrArg Except.ok h)
    else isFalse (fun hc => h (Except.ok.inj hc))

/-- `(a ++ b).data` unfolds to the concatenation of the data lists. -/
theorem strDataAppend (a b : String) : (a ++ b).data = a.data ++ b.data := rfl

/-- Looking a key up in a store filtered by a key-only predicate. -/
theorem cacheGet_filter (f : String → Bool) (store : CacheStore) (p : String) :
    cacheGet (List.filter (fun kv => f kv.1) store) p =
      (if f p then cacheGet store p else none) := by
  induction store with
  | nil => cases hf : f p <;> simp [cacheGet, hf]
  | cons kv tl ih =>
    by_cases hp : kv.1 = p
    · cases hf : f kv.1 <;>
        simp_all [cacheGet, List.filter_cons, List.find?_cons, hp, hf]
    · have hbe : (kv.1 == p) = false := by simp [hp]
      cases hf : f kv.1 <;>
        simp_all [cacheGet, List.filter_cons, List.find?_cons, hbe, hf]

/-- Setting then getting the same key. -/
theorem cacheGet_set (store : CacheStore) (p : String) (c : DeviceCache) :
    cacheGet (cacheSet store p c) p = some c := by
  induction store with
  | nil => simp [cacheSet, cacheGet, List.find?_cons]
  | cons kv tl ih =>
    cases hp : (kv.1 == p) with
    | true => simp [cacheSet, cacheGet, List.find?_cons, hp]
    | false => simpa [cacheSet, cacheGet, List.find?_cons, hp] using ih

/-! ## C6: `_PerDeviceCache.trim` -/

/-- C6: `trim` removes exactly the cached entries whose port path has no
live device or whose live device reports `is_valid` false; `trim` with an
empty live set removes everything; and any entry whose device is present and
valid keeps its exact `DeviceCache` value, so `get` returns it unchanged. -/
theorem trim_removes_exactly_stale (devices : List LiveDevice) (store : CacheStore)
    (p : String) (c : DeviceCache) :
    ((p, c) ∈ trim devices store ↔
      ((p, c) ∈ store ∧ ∃ d, deviceKeys devices p = some d ∧ d.is_valid = true)) ∧
    (cacheGet (trim devices store) p =
      (if trimKeep devices p then cacheGet store p else none)) ∧
    trim [] store = [] := by
  refine ⟨?_, ?_, ?_⟩
  · rw [trim, List.mem_filter]
    cases hd : deviceKeys devices p with
    | none => simp [trimKeep, hd]
    | some d => cases hv : d.is_valid <;> simp [trimKeep, hd, hv]
  · exact cacheGet_filter (fun q => trimKeep devices q) store p
  · have : ∀ q, trimKeep ([] : List LiveDevice) q = false := by
      intro q; rfl
    simp [trim, this]

/-! ## C5: `_ParcelToList` -/

/-- A successful pattern match captures four 8-character columns. -/
theorem matchParcelLine_lengths {l g1 g2 g3 g4 : List Char}
    (h : matchParcelLine l = some (g1, g2, g3, g4)) :
    g1.length = 8 ∧ g2.length = 8 ∧ g3.length = 8 ∧ g4.length = 8 := by
  unfold matchParcelLine at h
  split at h
  · rename_i hc
    obtain ⟨rfl, rfl, rfl, rfl⟩ : (l.drop 14).take 8 = g1 ∧ (l.drop 23).take 8 = g2 ∧
        (l.drop 32).take 8 = g3 ∧ (l.drop 41).take 8 = g4 := by
      simpa using h
    obtain ⟨_, _, _, _, _, h1, _, _, h2, _, _, h3, _, _, h4, _⟩ := hc
    exact ⟨h1, h2, h3, h4⟩
  · exact absurd h (by simp)

/-- For a 4-character half, equality with the blank placeholder is the same
as being entirely spaces. -/
theorem blank4_iff_all_space {h : List Char} (hl : h.length = 4) :
    (h = blank4) ↔ h.all (fun c => c == ' ') = true := by
  have hb : blank4 = List.replicate 4 ' ' := rfl
  rw [hb, List.eq_replicate_iff]
  simp [hl, List.all_eq_true]

/-- The per-column emission equals the spec-side filter of the two halves. -/
theorem emitGroup_eq_filter {g : List Char} (hg : g.length = 8) :
    emitGroup g =
      [lowHalf g, highHalf g].filter (fun h => !(h.all (fun c => c == ' '))) := by
  have hlow : (lowHalf g).length = 4 := by
    simp [lowHalf, List.length_take, List.length_drop, hg]
  have hhigh : (highHalf g).length = 4 := by
    simp [highHalf, List.length_take, hg]
  have a1 : ((lowHalf g).all (fun c => c == ' ')) = decide (lowHalf g = blank4) := by
    cases hall : (lowHalf g).all (fun c => c == ' ') with
    | true => simp [(blank4_iff_all_space hlow).mpr hall]
    | false =>
      have : ¬ (lowHalf g = blank4) := fun hc => by
        rw [(blank4_iff_all_space hlow).mp hc] at hall; cases hall
      simp [this]
  have a2 : ((highHalf g).all (fun c => c == ' ')) = decide (highHalf g = blank4) := by
    cases hall : (highHalf g).all (fun c => c == ' ') with
    | true => simp [(blank4_iff_all_space hhigh).mpr hall]
    | false =>
      have : ¬ (highHalf g = blank4) := fun hc => by
        rw [(blank4_iff_all_space hhigh).mp hc] at hall; cases hall
      simp [this]
  have hb : (blank4.all fun c => c == ' ') = true := rfl
  by_cases h1 : lowHalf g = blank4 <;> by_cases h2 : highHalf g = blank4 <;>
    simp [emitGroup, List.filter, a1, a2, h1, h2, hb]

/-- `_ParcelToList` agrees with the decoder stated from the spec's words. -/
theorem parcelToList_eq_spec (lines : List (List Char)) :
    _ParcelToList lines = specParcelDecode lines := by
  induction lines with
  | nil => rfl
  | cons l rest ih =>
    cases hm : matchParcelLine l with
    | none => simp [_ParcelToList, specParcelDecode, hm]
    | some g =>
      obtain ⟨g1, g2, g3, g4⟩ := g
      obtain ⟨h1, h2, h3, h4⟩ := matchParcelLine_lengths hm
      rw [specParcelDecode] at ih
      simp only [_ParcelToList, specParcelDecode, List.takeWhile_cons, hm, Option.isSome_some,
        List.map_cons, List.flatten_cons, ih]
      rw [emitGroup_eq_filter h1, emitGroup_eq_filter h2, emitGroup_eq_filter h3,
        emitGroup_eq_filter h4]
      simp [hm, List.append_assoc]

/-- Decoding stops at the first non-matching line and discards the rest. -/
theorem parcelToList_stop (pre : List (List Char)) (bad : List Char)
    (post : List (List Char)) (hpre : ∀ l ∈ pre, (matchParcelLine l).isSome = true)
    (hbad : matchParcelLine bad = none) :
    _ParcelToList (pre ++ bad :: post) = _ParcelToList pre := by
  induction pre with
  | nil => simp [_ParcelToList, hbad]
  | cons l pr ih =>
    have hl := hpre l (List.mem_cons_self l pr)
    cases hm : matchParcelLine l with
    | none => rw [hm] at hl; cases hl
    | some g =>
      obtain ⟨g1, g2, g3, g4⟩ := g
      simp only [List.cons_append, _ParcelToList, hm]
      exact congrArg
        (fun x => emitGroup g1 ++ emitGroup g2 ++ emitGroup g3 ++ emitGroup g4 ++ x)
        (ih (fun x hx => hpre x (List.mem_cons_of_mem l hx)))



/-- C5: `_ParcelToList` processes lines in order, stopping at the first line
that fails the record pattern and discarding all later lines, and for each
matching line emits, per column left to right, the low 16-bit half then the
high 16-bit half, skipping any half that is entirely blank — i.e. it equals
the decoder stated from the spec's words. -/
theorem parcelToList_order_and_stop (lines pre post : List (List Char)) (bad : List Char) :
    _ParcelToList lines = specParcelDecode lines ∧
    ((∀ l ∈ pre, (matchParcelLine l).isSome = true) → matchParcelLine bad = none →
      _ParcelToList (pre ++ bad :: post) = _ParcelToList pre) :=
  ⟨parcelToList_eq_spec lines, fun hpre hbad => parcelToList_stop pre bad post hpre hbad⟩

/-- C5 witness: with lines `[valid, valid, garbage, valid]` only the first
two contribute, at a concrete valid line. -/
theorem parcelToList_order_and_stop_witness :
    (∀ l ∈ [sampleParcelLine, sampleParcelLine], (matchParcelLine l).isSome = true) ∧
    matchParcelLine garbageLine = none ∧
    _ParcelToList ([sampleParcelLine, sampleParcelLine] ++ garbageLine :: [sampleParcelLine]) =
      _ParcelToList [sampleParcelLine, sampleParcelLine] :=
  ⟨by decide, by decide,
    (parcelToList_order_and_stop [] [sampleParcelLine, sampleParcelLine] [sampleParcelLine]
      garbageLine).2 (by decide) (by decide)⟩

/-! ## C1, C3, C4: PowerStateController -/

/-- The `'userspace'` specialization used inside `SetCPUSpeed` agrees with
the general `SetCPUScalingGovernor`. -/
theorem setGovernorUserspace_spec (cache : DeviceCache) (env : DevEnv) :
    SetCPUScalingGovernor cache "userspace" env = setGovernorUserspace cache env := by
  unfold SetCPUScalingGovernor setGovernorUserspace
  rw [if_neg (not_not_intro (by decide : "userspace" ∈ KNOWN_CPU_SCALING_GOVERNOR_VALUES))]
  by_cases he : cache.available_governors.isEmpty = true
  · simp [he]
  · by_cases hm : "userspace" ∈ cache.available_governors
    · simp [he, hm]
    · simp [he, hm]

/-- C1 (amended): for every integer speed in `[10000, 10000000]` that is not
a member of the cached supported-frequency list, `SetCPUSpeed` attempts no
device call at all; it returns the failure result `False` when the cached
list is absent or empty, and otherwise raises `AssertionError` instead of
returning. -/
theorem setCPUSpeed_unsupported_rejects (cache : DeviceCache) (env : DevEnv) (speed : Int)
    (h1 : 10000 ≤ speed) (h2 : speed ≤ 10000000)
    (hmem : speed ∉ cache.available_frequencies.getD []) :
    (SetCPUSpeed cache speed env).2 = [] ∧
    (cache.available_frequencies.getD [] = [] →
      SetCPUSpeed cache speed env = (Except.ok false, [])) ∧
    (cache.available_frequencies.getD [] ≠ [] →
      SetCPUSpeed cache speed env = (Except.error PyErr.assertionError, [])) := by
  unfold SetCPUSpeed
  rw [if_neg (not_not_intro ⟨h1, h2⟩)]
  cases hf : cache.available_frequencies with
  | none =>
    refine ⟨rfl, fun _ => rfl, fun hne => absurd ?_ hne⟩
    simp [hf]
  | some freqs =>
    rw [hf] at hmem
    cases freqs with
    | nil => exact ⟨rfl, fun _ => rfl, fun hne => absurd (by simp [hf]) hne⟩
    | cons a tl =>
      have hm2 : speed ∉ (a :: tl) := by simpa using hmem
      have hie : ((a :: tl).isEmpty = true) = False := by simp
      refine ⟨?_, fun hc => ?_, fun _ => ?_⟩
      · simp [hie, hm2]
      · simp at hc
      · simp [hie, hm2]



/-- C1 counterexample: with cached frequencies `[300000]`, `SetCPUSpeed`
at 500000 raises `AssertionError`; it does not return a failure result. -/
theorem setCPUSpeed_unsupported_cex :
    (SetCPUSpeed c1CexCache 500000 devEnv0).1 = Except.error PyErr.assertionError ∧
    ¬ (SetCPUSpeed c1CexCache 500000 devEnv0).1 = Except.ok false := by decide


/-- C1 witness: the amended theorem applied at speed 500000 against an
absent list and against the non-empty list `[300000]`. -/
theorem setCPUSpeed_unsupported_rejects_witness :
    SetCPUSpeed c1EmptyCache 500000 devEnv0 = (Except.ok false, []) ∧
    SetCPUSpeed c1CexCache 500000 devEnv0 = (Except.error PyErr.assertionError, []) :=
  ⟨(setCPUSpeed_unsupported_rejects c1EmptyCache devEnv0 500000 (by decide) (by decide)
      (by decide)).2.1 (by decide),
   (setCPUSpeed_unsupported_rejects c1CexCache devEnv0 500000 (by decide) (by decide)
      (by decide)).2.2 (by decide)⟩

/-- C3 (amended): on a device whose cached governor list is *non-empty* and
lacks `'powersave'` and whose cached frequency list is non-empty and sorted
ascending, `SetCPUScalingGovernor('powersave')` delegates to `SetCPUSpeed`
at the first (minimum) cached frequency and returns that call's result. -/
theorem setGovernor_powersave_fallback (cache : DeviceCache) (env : DevEnv)
    (f : Int) (rest : List Int)
    (hne : cache.available_governors ≠ [])
    (hnm : "powersave" ∉ cache.available_governors)
    (hf : cache.available_frequencies = some (f :: rest))
    (hs : List.Sorted (· ≤ ·) (f :: rest)) :
    SetCPUScalingGovernor cache "powersave" env = SetCPUSpeed cache f env ∧
    ∀ x ∈ f :: rest, f ≤ x := by
  constructor
  · unfold SetCPUScalingGovernor
    rw [if_neg (not_not_intro (by decide : "powersave" ∈ KNOWN_CPU_SCALING_GOVERNOR_VALUES))]
    have hie : ¬ (cache.available_governors.isEmpty = true) :=
      fun h => hne (List.isEmpty_iff.mp h)
    rw [if_neg hie, if_neg hnm, if_pos (by decide : (("powersave" : String) == "powersave") = true),
      hf]
  · intro x hx
    rcases List.mem_cons.mp hx with rfl | hx2
    · exact le_refl x
    · exact (List.sorted_cons.mp hs).1 x hx2


/-- C3 counterexample: with an empty cached governor list (which also lacks
`'powersave'`) and frequencies `[300000, 1000000]`, the call fails fast with
no device call instead of delegating to `SetCPUSpeed(300000)`, which would
have written the frequency file. -/
theorem setGovernor_powersave_cex :
    (SetCPUScalingGovernor c3CexCache "powersave" devEnv0).2 = [] ∧
    (SetCPUSpeed c3CexCache 300000 devEnv0).2 ≠ [] ∧
    SetCPUScalingGovernor c3CexCache "powersave" devEnv0 ≠
      SetCPUSpeed c3CexCache 300000 devEnv0 := by decide


/-- C3 witness: the amended theorem at a concrete device cache. -/
theorem setGovernor_powersave_fallback_witness :
    SetCPUScalingGovernor c3WitCache "powersave" devEnv0 =
      SetCPUSpeed c3WitCache 300000 devEnv0 :=
  (setGovernor_powersave_fallback c3WitCache devEnv0 300000 [1000000] (by decide) (by decide)
    rfl (by simp [List.sorted_cons])).1

/-- C4: when the requested governor is in the cached governor list (all of
whose members lie in the known vocabulary) and the value read back from the
`scaling_governor` file, stripped, already equals it, the call succeeds
after exactly one read and performs no write (no push, no shell). -/
theorem setGovernor_idempotent_read_only (cache : DeviceCache) (env : DevEnv)
    (gov cur : String)
    (hsub : ∀ g ∈ cache.available_governors, g ∈ KNOWN_CPU_SCALING_GOVERNOR_VALUES)
    (hmem : gov ∈ cache.available_governors)
    (hpull : env.pull scalingGovernorPath = some cur)
    (hstrip : pyStrip cur = gov) :
    SetCPUScalingGovernor cache gov env = (Except.ok true, [Event.pull scalingGovernorPath]) := by
  have hk : gov ∈ KNOWN_CPU_SCALING_GOVERNOR_VALUES := hsub gov hmem
  have hne : ¬ (cache.available_governors.isEmpty = true) := fun h => by
    rw [List.isEmpty_iff.mp h] at hmem
    exact (List.not_mem_nil gov) hmem
  have hgempty : gov ≠ "" := by
    intro h; rw [h] at hk; revert hk; decide
  have hcur : (cur != "") = true := by
    rw [bne_iff_ne]
    intro h
    rw [h] at hstrip
    exact hgempty ((show pyStrip "" = "" from rfl) ▸ hstrip).symm
  unfold SetCPUScalingGovernor
  rw [if_neg (not_not_intro hk), if_neg hne, if_pos hmem]
  unfold governorWrite
  rw [hpull]
  have hcond : (pyTruthy (some cur) && (pyStrip ((some cur).getD "") == gov)) = true := by
    simp [pyTruthy, hcur, hstrip]
  rw [if_pos hcond]



/-- C4 witness: the theorem at a device already in the requested state. -/
theorem setGovernor_idempotent_read_only_witness :
    SetCPUScalingGovernor c4Cache "ondemand" c4Env =
      (Except.ok true, [Event.pull scalingGovernorPath]) :=
  setGovernor_idempotent_read_only c4Cache c4Env "ondemand" "ondemand\n" (by decide) (by decide)
    (by decide) (by decide)

/-! ## C10, C2, C9: `_InitCache` -/

/-- `governorWrite` always begins with the read of the governor file. -/
theorem governorWrite_trace_head (gov : String) (env : DevEnv) :
    (governorWrite gov env).2.head? = some (Event.pull scalingGovernorPath) := by
  simp only [governorWrite]
  split
  · rfl
  · split
    · split <;> rfl
    · split
      · rfl
      · split <;> rfl

/-- Every successful fetch reports exactly the governor list computed by
`governorsOf` from the sysfs read. -/
theorem initCacheFetch_ok_governors (env : InitEnv) :
    ∀ c, (initCacheFetch env).1 = Except.ok c →
      governorsOf (env.pull scalingAvailableGovernorsPath) =
        Except.ok c.available_governors := by
  intro c hc
  simp only [initCacheFetch] at hc
  split at hc
  · simp at hc
  · split at hc
    · simp at hc
    · rename_i govs hg
      split at hc
      · split at hc
        · simp at hc
        · simp only [Except.ok.injEq] at hc
          subst hc
          exact hg
      · split at hc
        · simp at hc
        · simp only [Except.ok.injEq] at hc
          subst hc
          exact hg

/-- The fetch's first device call is always the external-storage query. -/
theorem initCacheFetch_trace_head (env : InitEnv) :
    (initCacheFetch env).2.head? = some (Event.shell "echo -n $EXTERNAL_STORAGE") := by
  simp only [initCacheFetch]
  split
  · rfl
  · split
    · rfl
    · split
      · split <;> rfl
      · split <;> rfl

/-- C10: when the `scaling_available_governors` read is falsy, a successful
`_InitCache` records the full known governor vocabulary (all six names), a
non-empty list, so a subsequent `SetCPUScalingGovernor` call on that cache
does not fail fast at the missing-governor-list check but proceeds to read
the governor file. -/
theorem initCache_default_governors (env : InitEnv) (store : CacheStore) (p : String)
    (c : DeviceCache) (st : CacheStore) (tr : List Event)
    (hmiss : cacheGet store p = none)
    (hgov : pyTruthy (env.pull scalingAvailableGovernorsPath) = false)
    (hrun : _InitCache env store p = (Except.ok c, st, tr)) :
    c.available_governors = KNOWN_CPU_SCALING_GOVERNOR_VALUES ∧
    c.available_governors ≠ [] ∧
    (∀ (env2 : DevEnv) (g : String), g ∈ KNOWN_CPU_SCALING_GOVERNOR_VALUES →
      (SetCPUScalingGovernor c g env2).2.head? = some (Event.pull scalingGovernorPath)) := by
  have hok : (initCacheFetch env).1 = Except.ok c := by
    unfold _InitCache at hrun
    rw [hmiss] at hrun
    dsimp only at hrun
    set res := initCacheFetch env with hres
    clear_value res
    obtain ⟨r, tr0⟩ := res
    cases r with
    | error e =>
      dsimp only at hrun
      exact absurd (congrArg (fun x => x.1) hrun) (by simp)
    | ok c0 =>
      dsimp only at hrun
      exact congrArg Except.ok (Except.ok.inj (congrArg (fun x => x.1) hrun))
  have hgeq := initCacheFetch_ok_governors env c hok
  have hgov2 : governorsOf (env.pull scalingAvailableGovernorsPath) =
      Except.ok KNOWN_CPU_SCALING_GOVERNOR_VALUES := by
    unfold governorsOf
    rw [if_neg (by simp [hgov])]
  have hfield : c.available_governors = KNOWN_CPU_SCALING_GOVERNOR_VALUES := by
    rw [hgov2] at hgeq
    exact (Except.ok.inj hgeq).symm
  refine ⟨hfield, by rw [hfield]; decide, ?_⟩
  intro env2 g hgk
  have hmemg : g ∈ c.available_governors := by rw [hfield]; exact hgk
  have hie : ¬ (c.available_governors.isEmpty = true) := fun h => by
    rw [hfield] at h
    exact absurd h (by decide)
  unfold SetCPUScalingGovernor
  rw [if_neg (not_not_intro hgk), if_neg hie, if_pos hmemg]
  exact governorWrite_trace_head g env2




/-- C10 witness: the theorem at a concrete device whose governor file reads
empty. -/
theorem initCache_default_governors_witness :
    c10CacheVal.available_governors = KNOWN_CPU_SCALING_GOVERNOR_VALUES ∧
    (SetCPUScalingGovernor c10CacheVal "powersave" devEnv0).2.head? =
      some (Event.pull scalingGovernorPath) :=
  have h := initCache_default_governors c10Env [] "p0" c10CacheVal [("p0", c10CacheVal)]
    c10Trace rfl rfl (by decide)
  ⟨h.1, h.2.2 devEnv0 "powersave" (by decide)⟩


/-- C2: evaluating `_InitCache` on a device that reports the unrecognized
available governor `"superfast"` shows the code *raising* `AssertionError`
(and caching nothing) instead of completing and treating the value as
unknown, contradicting the spec's untrusted-input requirement. -/
theorem initCache_unknown_governor_asserts :
    ¬ ("superfast" ∈ KNOWN_CPU_SCALING_GOVERNOR_VALUES) ∧
    (_InitCache c2Env [] "p0").1 = Except.error PyErr.assertionError ∧
    (_InitCache c2Env [] "p0").2.1 = [] := by decide

/-- C9: on a cache miss, `_InitCache` stores the fetched snapshot exactly
when every optional field was retrieved (`allFieldsNotNone`); on a partial
or failed fetch the store is left unchanged, and any call that misses the
cache begins with a fresh retrieval (its first device call is the
external-storage query). -/
theorem initCache_stores_only_complete (env : InitEnv) (store : CacheStore) (p : String)
    (hmiss : cacheGet store p = none) :
    (∀ c, (_InitCache env store p).1 = Except.ok c →
      (cacheGet (_InitCache env store p).2.1 p = some c ↔ allFieldsNotNone c = true)) ∧
    (∀ c, (_InitCache env store p).1 = Except.ok c → allFieldsNotNone c = false →
      (_InitCache env store p).2.1 = store) ∧
    (∀ e, (_InitCache env store p).1 = Except.error e →
      (_InitCache env store p).2.1 = store) ∧
    (_InitCache env store p).2.2.head? = some (Event.shell "echo -n $EXTERNAL_STORAGE") := by
  unfold _InitCache
  rw [hmiss]
  rcases hfe : initCacheFetch env with ⟨r, tr0⟩
  have hhead : tr0.head? = some (Event.shell "echo -n $EXTERNAL_STORAGE") := by
    have := initCacheFetch_trace_head env
    rw [hfe] at this
    exact this
  cases r with
  | error e =>
    dsimp only
    refine ⟨fun c hc => ?_, fun c hc _ => ?_, fun e2 _ => rfl, hhead⟩
    · exact absurd hc (by simp)
    · exact absurd hc (by simp)
  | ok c0 =>
    dsimp only
    refine ⟨fun c hc => ?_, fun c hc hall => ?_, fun e2 hc => ?_, hhead⟩
    · have hc0 : c0 = c := Except.ok.inj hc
      subst hc0
      by_cases hall : allFieldsNotNone c0 = true
      · rw [if_pos hall]
        simp [cacheGet_set store p c0, hall]
      · have hallf : allFieldsNotNone c0 = false := by
          cases h2 : allFieldsNotNone c0
          · rfl
          · exact absurd h2 hall
        rw [if_neg hall, hmiss]
        simp [hallf]
    · have hc0 : c0 = c := Except.ok.inj hc
      subst hc0
      rw [if_neg (by simp [hall])]
    · exact absurd hc (by simp)

/-- C9 witness: under `c10Env` every field is retrieved and the snapshot is
stored; under `c2Env` the fetch raises and the store stays empty. -/
theorem initCache_stores_only_complete_witness :
    cacheGet (_InitCache c10Env [] "p0").2.1 "p0" = some c10CacheVal ∧
    (_InitCache c2Env [] "q0").2.1 = [] :=
  ⟨((initCache_stores_only_complete c10Env [] "p0" rfl).1 c10CacheVal (by decide)).mpr
      (by decide),
   (initCache_stores_only_complete c2Env [] "q0" rfl).2.2.1 PyErr.assertionError (by decide)⟩

/-! ## C7: `WaitUntilFullyBooted` -/

/-- When `Stat` fails at every tick of the polling window, the Phase A loop
returns `false` and its trace consists solely of `Stat` calls. -/
theorem waitForDeviceLoop_all_fail (env : BootEnv) (esp : String) :
    ∀ (fuel t : Nat), (∀ k, t ≤ k → k < t + fuel → env.stat k esp = none) →
      (waitForDeviceLoop env esp fuel t).1 = false ∧
      (∀ e ∈ (waitForDeviceLoop env esp fuel t).2.2, e = Event.stat esp) := by
  intro fuel
  induction fuel with
  | zero => intro t _; exact ⟨rfl, by simp [waitForDeviceLoop]⟩
  | succ f ih =>
    intro t h
    have h0 : env.stat t esp = none := h t le_rfl (by omega)
    have hr := ih (t + 1) (fun k hk1 hk2 => h k (by omega) (by omega))
    constructor
    · simp only [waitForDeviceLoop, h0]
      exact hr.1
    · simp only [waitForDeviceLoop, h0]
      intro e he
      rcases List.mem_cons.mp he with rfl | he2
      · rfl
      · exact hr.2 e he2

/-- C7: if the cached external storage path is absent (or empty), or Phase
A's `Stat` polling never succeeds within the timeout, `WaitUntilFullyBooted`
returns `False` and its trace contains only `Stat` calls — it never polls
the boot-animation property (Phase B) nor the package manager (Phase C). -/
theorem waitUntilFullyBooted_phaseA_gate (cache : DeviceCache) (timeout : Nat)
    (env : BootEnv)
    (h : ∀ esp, cache.external_storage_path = some esp → esp ≠ "" →
      ∀ k, k ≤ timeout → env.stat k esp = none) :
    (WaitUntilFullyBooted cache timeout env).1 = Except.ok false ∧
    (∀ e ∈ (WaitUntilFullyBooted cache timeout env).2, isStatEvent e = true) := by
  cases hesp : cache.external_storage_path with
  | none =>
    have hwufb : WaitUntilFullyBooted cache timeout env = (Except.ok false, []) := by
      unfold WaitUntilFullyBooted WaitForDevice
      rw [hesp]
      rfl
    rw [hwufb]
    exact ⟨rfl, by simp⟩
  | some esp =>
    by_cases he : esp = ""
    · have hwufb : WaitUntilFullyBooted cache timeout env = (Except.ok false, []) := by
        unfold WaitUntilFullyBooted WaitForDevice
        rw [hesp, he]
        rfl
      rw [hwufb]
      exact ⟨rfl, by simp⟩
    · have hl := waitForDeviceLoop_all_fail env esp (timeout + 1) 0
        (fun k hk1 hk2 => h esp hesp he k (by omega))
      have hwfd : WaitForDevice cache timeout env 0 =
          waitForDeviceLoop env esp (timeout + 1) 0 := by
        unfold WaitForDevice
        rw [hesp]
        dsimp only
        rw [if_neg (by simp [he])]
      have hwufb : WaitUntilFullyBooted cache timeout env =
          (Except.ok false, (waitForDeviceLoop env esp (timeout + 1) 0).2.2) := by
        unfold WaitUntilFullyBooted
        rw [hwfd]
        dsimp only
        rw [hl.1]
        rfl
      rw [hwufb]
      exact ⟨rfl, fun e he2 => by rw [hl.2 e he2]; rfl⟩



/-- C7 witness: a device that never becomes responsive within a 2-tick
timeout yields failure after three `Stat` polls and no shell call. -/
theorem waitUntilFullyBooted_phaseA_gate_witness :
    (WaitUntilFullyBooted c7Cache 2 c7Env).1 = Except.ok false ∧
    (WaitUntilFullyBooted c7Cache 2 c7Env).2.all isStatEvent = true :=
  ⟨(waitUntilFullyBooted_phaseA_gate c7Cache 2 c7Env (fun _ _ _ _ _ => rfl)).1,
   List.all_eq_true.mpr
     (waitUntilFullyBooted_phaseA_gate c7Cache 2 c7Env (fun _ _ _ _ _ => rfl)).2⟩

/-! ## C8: `Mkstemp` / `WrappedShell` -/

/-- `pyStartsWith` holds for any extension of the prefix. -/
theorem pyStartsWith_append (pre s : String) : pyStartsWith (pre ++ s) pre = true := by
  rw [pyStartsWith, strDataAppend, List.isPrefixOf_iff_prefix]
  exact List.prefix_append pre.data s.data

/-- An `rm` command is not an `sh` execution and vice versa. -/
theorem rm_not_sh (s : String) : isRmEvent (Event.shell ("sh " ++ s)) = false ∧
    isShExecEvent (Event.shell ("rm " ++ s)) = false := by
  constructor
  · show pyStartsWith ("sh " ++ s) "rm " = false
    rw [pyStartsWith]
    have : ("sh " ++ s).data = 's' :: 'h' :: ' ' :: s.data := by
      rw [strDataAppend]; rfl
    rw [this]
    rfl
  · show pyStartsWith ("rm " ++ s) "sh " = false
    rw [pyStartsWith]
    have : ("rm " ++ s).data = 'r' :: 'm' :: ' ' :: s.data := by
      rw [strDataAppend]; rfl
    rw [this]
    rfl

/-- `rm` commands do start with `"rm "`. -/
theorem rm_is_rm (s : String) : isRmEvent (Event.shell ("rm " ++ s)) = true :=
  pyStartsWith_append "rm " s

/-- The character data of a `sh <script> &> <outfile>` command. -/
theorem sh_cmd_data (x y : String) :
    ("sh " ++ x ++ " &> " ++ y).data =
      's' :: 'h' :: ' ' :: (x.data ++ ((" &> " : String).data ++ y.data)) := by
  rw [strDataAppend, strDataAppend, strDataAppend,
    show ("sh " : String).data = ['s', 'h', ' '] from rfl]
  simp [List.append_assoc]

/-- The script-execution command is not an `rm` removal. -/
theorem sh_not_rm (x y : String) :
    isRmEvent (Event.shell ("sh " ++ x ++ " &> " ++ y)) = false := by
  show pyStartsWith ("sh " ++ x ++ " &> " ++ y) "rm " = false
  rw [pyStartsWith, sh_cmd_data]
  rfl

/-- The `Mkstemp` retry loop performs only `Stat` and `Push` calls. -/
theorem mkstempLoop_no_shell (env : ShellEnv) (names : Nat → String)
    (content pre suf : String) :
    ∀ (fuel i : Nat), ∀ e ∈ (mkstempLoop env names content pre suf fuel i).2,
      isRmEvent e = false ∧ isShExecEvent e = false := by
  intro fuel
  induction fuel with
  | zero => intro i e he; simp [mkstempLoop] at he
  | succ f ih =>
    intro i e he
    simp only [mkstempLoop] at he
    rcases hst : env.stat ("/data/local/tmp/" ++ pre ++ names i ++ suf) with _ | m
    · rw [hst] at he
      dsimp only at he
      split at he
      · rcases List.mem_cons.mp he with rfl | he2
        · exact ⟨rfl, rfl⟩
        · rcases List.mem_cons.mp he2 with rfl | he3
          · exact ⟨rfl, rfl⟩
          · simp at he3
      · rcases List.mem_cons.mp he with rfl | he2
        · exact ⟨rfl, rfl⟩
        · rcases List.mem_cons.mp he2 with rfl | he3
          · exact ⟨rfl, rfl⟩
          · exact ih (i + 1) e he3
    · rw [hst] at he
      dsimp only at he
      split at he
      · rcases List.mem_cons.mp he with rfl | he2
        · exact ⟨rfl, rfl⟩
        · exact ih (i + 1) e he2
      · split at he
        · rcases List.mem_cons.mp he with rfl | he2
          · exact ⟨rfl, rfl⟩
          · rcases List.mem_cons.mp he2 with rfl | he3
            · exact ⟨rfl, rfl⟩
            · simp at he3
        · rcases List.mem_cons.mp he with rfl | he2
          · exact ⟨rfl, rfl⟩
          · rcases List.mem_cons.mp he2 with rfl | he3
            · exact ⟨rfl, rfl⟩
            · exact ih (i + 1) e he3

/-- C8: whenever both temporary files are allocated, `WrappedShell` issues
exactly two `rm` shell calls — one for the output file and one for the
script — whatever the executed script's exit code; and when either
allocation fails it returns the `False` sentinel without ever executing the
wrapped command (`sh ...`). -/
theorem wrappedShell_cleanup (env : ShellEnv) (n1 n2 : Nat → String)
    (commands : List String) :
    (∀ s o, (Mkstemp env n1 (wrappedScriptContent commands) "python-adb" ".sh").1 = some s →
      (Mkstemp env n2 "" "python-adb" ".txt").1 = some o →
      List.countP isRmEvent (WrappedShell env n1 n2 commands).2 = 2 ∧
      Event.shell ("rm " ++ o) ∈ (WrappedShell env n1 n2 commands).2 ∧
      Event.shell ("rm " ++ s) ∈ (WrappedShell env n1 n2 commands).2) ∧
    (((Mkstemp env n1 (wrappedScriptContent commands) "python-adb" ".sh").1 = none ∨
      (Mkstemp env n2 "" "python-adb" ".txt").1 = none) →
      (WrappedShell env n1 n2 commands).1 = WrappedResult.fail ∧
      ∀ e ∈ (WrappedShell env n1 n2 commands).2, isShExecEvent e = false) := by
  have hn1 : ∀ e ∈ (Mkstemp env n1 (wrappedScriptContent commands) "python-adb" ".sh").2,
      isRmEvent e = false ∧ isShExecEvent e = false :=
    mkstempLoop_no_shell env n1 (wrappedScriptContent commands) "python-adb" ".sh" 5 0
  have hn2 : ∀ e ∈ (Mkstemp env n2 "" "python-adb" ".txt").2,
      isRmEvent e = false ∧ isShExecEvent e = false :=
    mkstempLoop_no_shell env n2 "" "python-adb" ".txt" 5 0
  unfold WrappedShell
  dsimp only
  set m1 := Mkstemp env n1 (wrappedScriptContent commands) "python-adb" ".sh" with hm1def
  set m2 := Mkstemp env n2 "" "python-adb" ".txt" with hm2def
  clear_value m1 m2
  obtain ⟨r1, t1⟩ := m1
  obtain ⟨r2, t2⟩ := m2
  dsimp only at hn1 hn2
  cases r1 with
  | none =>
    dsimp only
    refine ⟨fun s o hs _ => absurd hs (by simp), fun _ => ⟨rfl, fun e he => (hn1 e he).2⟩⟩
  | some s0 =>
    cases r2 with
    | none =>
      dsimp only
      refine ⟨fun s o _ ho => absurd ho (by simp), fun _ => ⟨rfl, fun e he => ?_⟩⟩
      rcases List.mem_append.mp he with h12 | h3
      · rcases List.mem_append.mp h12 with h1 | h2
        · exact (hn1 e h1).2
        · exact (hn2 e h2).2
      · rw [List.mem_singleton.mp h3]
        exact (rm_not_sh s0).2
    | some o0 =>
      dsimp only
      constructor
      · intro s o hs ho
        obtain rfl : s0 = s := Option.some.inj hs
        obtain rfl : o0 = o := Option.some.inj ho
        refine ⟨?_, ?_, ?_⟩
        · rw [show t1 ++ t2 ++
            [Event.shell ("sh " ++ s0 ++ " &> " ++ o0), Event.pull o0,
             Event.shell ("rm " ++ o0), Event.shell ("rm " ++ s0)] =
            (t1 ++ t2) ++
            [Event.shell ("sh " ++ s0 ++ " &> " ++ o0), Event.pull o0,
             Event.shell ("rm " ++ o0), Event.shell ("rm " ++ s0)] from rfl,
            List.countP_append, List.countP_append]
          have c1 : List.countP isRmEvent t1 = 0 :=
            List.countP_eq_zero.mpr (fun e he => by simp [(hn1 e he).1])
          have c2 : List.countP isRmEvent t2 = 0 :=
            List.countP_eq_zero.mpr (fun e he => by simp [(hn2 e he).1])
          rw [c1, c2]
          simp [List.countP_cons, List.countP_nil, isRmEvent, pyStartsWith_append,
            show pyStartsWith ("sh " ++ s0 ++ " &> " ++ o0) "rm " = false from sh_not_rm s0 o0]
        · simp [List.mem_append]
        · simp [List.mem_append]
      · intro hc
        rcases hc with hc | hc <;> exact absurd hc (by simp)



/-- C8 witness: the theorem applied to a run whose script exits with code 3
(both `rm` calls still issued) and to a run whose temp allocation fails. -/
theorem wrappedShell_cleanup_witness :
    List.countP isRmEvent
      (WrappedShell c8EnvOk (fun _ => "AAAAA") (fun _ => "BBBBB") ["echo hi"]).2 = 2 ∧
    Event.shell ("rm " ++ "/data/local/tmp/python-adbBBBBB.txt") ∈
      (WrappedShell c8EnvOk (fun _ => "AAAAA") (fun _ => "BBBBB") ["echo hi"]).2 ∧
    (WrappedShell c8EnvFail (fun _ => "AAAAA") (fun _ => "BBBBB") ["echo hi"]).1 =
      WrappedResult.fail :=
  have h1 := (wrappedShell_cleanup c8EnvOk (fun _ => "AAAAA") (fun _ => "BBBBB")
    ["echo hi"]).1 "/data/local/tmp/python-adbAAAAA.sh" "/data/local/tmp/python-adbBBBBB.txt"
    (by decide) (by decide)
  have h2 := (wrappedShell_cleanup c8EnvFail (fun _ => "AAAAA") (fun _ => "BBBBB")
    ["echo hi"]).2 (Or.inl (by decide))
  ⟨h1.1, h1.2.1, h2.1⟩
